import Mathlib

/-!
Shallow embedding of the nutrition tool layer of `garmin_mcp`
(`src/garmin_mcp/nutrition.py`): meal-name resolution, response curation,
and the tool handlers with their try/except error wrapping.

Python values that flow through the curators are modelled by the `Json`
inductive below, with `Json.null` standing for Python `None`.  Collaborator
calls (the garth client operations) are modelled as `Except String`-valued
parameters of each handler; an `Except.error e` stands for the collaborator
raising an exception whose `str` is `e`.  `json.dumps(obj, indent=2)` is
modelled by returning the object itself (`ToolResponse.json`), since every
claim is about the structure of the object, not its printed form.

Python string primitives (`str.strip`, `str.upper`, `str.split`, `in`) are
re-implemented by structural recursion on the character list of the string,
so that every definition evaluates by `decide`/`rfl`.  They agree with the
Python primitives on all ASCII inputs, which is all the source ever
compares (meal names, log ids, error messages).
-/

set_option linter.unusedVariables false

/-- A Python value as it appears in the curated dictionaries.  `null` is
Python `None`; objects are insertion-ordered association lists exactly like
Python dicts. -/
inductive Json where
  | null : Json
  | bool (b : Bool) : Json
  | num (n : Int) : Json
  | str (s : String) : Json
  | arr (elems : List Json) : Json
  | obj (fields : List (String × Json)) : Json

/-- Python `v is None`. -/
def Json.isNull : Json → Bool
  | .null => true
  | _ => false

/-- Python truthiness of a value (`if v:`): `None`, `False`, `0`, the empty
string, the empty list and the empty dict are falsy. -/
def Json.pyTruthy : Json → Bool
  | .null => false
  | .bool b => b
  | .num n => n != 0
  | .str s => s != ""
  | .arr elems => !elems.isEmpty
  | .obj fields => !fields.isEmpty

/-- Python truthiness of an `Optional[list]` attribute (`if x:`): falsy when
the attribute is `None` or the empty list. -/
def optListTruthy {α : Type} : Option (List α) → Bool
  | none => false
  | some l => !l.isEmpty

/-- The dict comprehension `{k: v for k, v in d.items() if v is not None}`. -/
def pruneNulls (d : List (String × Json)) : List (String × Json) :=
  d.filter (fun kv => !kv.2.isNull)

/-- The keys of a curated dictionary, in insertion order. -/
def objKeys (d : List (String × Json)) : List String :=
  d.map Prod.fst

/-- Python `d[k]` for an insertion-ordered dict: first value bound to `k`. -/
def jlookup (k : String) (d : List (String × Json)) : Option Json :=
  (d.find? (fun kv => kv.1 == k)).map Prod.snd

/-! ### Python string primitives -/

/-- ASCII uppercasing of one character, as `str.upper` acts on ASCII. -/
def pyUpperChar (c : Char) : Char :=
  if 97 ≤ c.toNat ∧ c.toNat ≤ 122 then Char.ofNat (c.toNat - 32) else c

/-- `str.upper()` (ASCII fragment). -/
def pyUpper (s : String) : String := String.mk (s.data.map pyUpperChar)

/-- The characters `str.strip()` removes (ASCII whitespace). -/
def pySpaceChar (c : Char) : Bool :=
  c.toNat == 32 || c.toNat == 9 || c.toNat == 10 ||
  c.toNat == 13 || c.toNat == 11 || c.toNat == 12

/-- `str.strip()` (ASCII fragment). -/
def pyStrip (s : String) : String :=
  String.mk (((s.data.dropWhile pySpaceChar).reverse.dropWhile pySpaceChar).reverse)

/-- `str.split(sep)` for a one-character separator, on character lists:
`"".split(",") == [""]`, and empty pieces are kept. -/
def splitOnChar (sep : Char) : List Char → List (List Char)
  | [] => [[]]
  | c :: cs =>
    match splitOnChar sep cs with
    | [] => if c == sep then [[], [c]] else [[c]]
    | h :: t => if c == sep then [] :: h :: t else (c :: h) :: t

/-- `log_ids.split(",")`. -/
def pySplitComma (s : String) : List String :=
  (splitOnChar (Char.ofNat 44) s.data).map String.mk

/-- Does `s` start with `pat`, on character lists. -/
def headMatches : List Char → List Char → Bool
  | [], _ => true
  | _ :: _, [] => false
  | p :: ps, c :: cs => p == c && headMatches ps cs

/-- Substring occurrence on character lists. -/
def containsList (pat : List Char) : List Char → Bool
  | [] => pat.isEmpty
  | c :: cs => headMatches pat (c :: cs) || containsList pat cs

/-- Python `pat in s` on strings. -/
def strContains (s pat : String) : Bool := containsList pat.data s.data

/-- A single-quote character, as used by Python `repr` of strings. -/
def pyQuoteMark : String := String.mk [Char.ofNat 39]

/-- Python `repr` of a plain string (single-quoted). -/
def pyStrQuote (s : String) : String := pyQuoteMark ++ s ++ pyQuoteMark

/-- `", ".join`-style concatenation. -/
def joinWith (sep : String) : List String → String
  | [] => ""
  | [x] => x
  | x :: y :: xs => x ++ sep ++ joinWith sep (y :: xs)

/-- Python `str` of a list of strings, as interpolated by an f-string:
`['a', 'b']`. -/
def pyReprStrList (l : List String) : String :=
  "[" ++ joinWith ", " (l.map pyStrQuote) ++ "]"

example : strContains "Error getting nutrition log: API down" "API down" = true := by decide
example : strContains "Error getting nutrition log: API down" "Error" = true := by decide
example : strContains "Error x" "API down" = false := by decide
example : pySplitComma "abc123,def456" = ["abc123", "def456"] := by decide
example : pySplitComma "" = [""] := by decide
example : pyStrip "  a b " = "a b" := by decide
example : pyUpper "Breakfast" = "BREAKFAST" := by decide
example : pyReprStrList ["a", "b"] =
    "[" ++ pyQuoteMark ++ "a" ++ pyQuoteMark ++ ", " ++ pyQuoteMark ++ "b" ++ pyQuoteMark ++ "]" := by
  decide

/-! ### The garth response object model

Structures mirror the attributes of the garth response objects that
`nutrition.py` reads.  Scalar attributes are `Json` (with `Json.null` for
`None`); attributes holding typed sub-objects or lists of them are `Option`,
since a dataclass instance is always truthy and only `None` is falsy. -/

/-- A meal definition (`garth` `Meal`): remote-assigned id and display name. -/
structure Meal where
  meal_id : Int
  meal_name : String

/-- `garth` `NutritionContent`. -/
structure NutritionContent where
  serving_id : Json
  serving_unit : Json
  number_of_units : Json
  calories : Json
  protein : Json
  fat : Json
  carbs : Json
  fiber : Json
  sugar : Json

/-- `garth` `FoodMetaData`. -/
structure FoodMetaData where
  food_id : Json
  food_name : Json
  brand_name : Json
  source : Json

/-- A SearchResult-like object (search results, favorites, custom foods,
custom meal items). -/
structure SearchResult where
  food_meta_data : Option FoodMetaData
  nutrition_contents : Option (List NutritionContent)
  is_favorite : Json

/-- `garth` `LoggedFood`. -/
structure LoggedFood where
  log_id : Json
  food_meta_data : Option FoodMetaData
  serving_qty : Json
  selected_nutrition_content : Option NutritionContent

/-- The calories/protein/fat/carbs block read from
`daily_nutrition_goals` / `daily_nutrition_content` / `macro_goals`. -/
structure MacroGoals where
  calories : Json
  protein : Json
  fat : Json
  carbs : Json

/-- One element of `DailyNutritionLog.meal_details`. -/
structure MealDetail where
  meal : Meal
  meal_nutrition_content : Option NutritionContent
  logged_foods : Option (List LoggedFood)

/-- `garth` `DailyNutritionLog`. -/
structure DailyNutritionLog where
  meal_date : Json
  daily_nutrition_goals : Option MacroGoals
  daily_nutrition_content : Option MacroGoals
  meal_details : List MealDetail

/-- `garth` `NutritionSettings`. -/
structure NutritionSettings where
  calorie_goal : Json
  weight_change_type : Json
  auto_calorie_adjustment : Json
  region_code : Json
  language_code : Json
  starting_weight : Json
  target_weight_goal : Json
  target_date : Json
  macro_goals : Option MacroGoals

/-- `garth` `SearchResults` (from `FoodSearch.search`). -/
structure SearchResults where
  results : List SearchResult
  more_data_available : Json

/-- `garth` `RecentFoods` (from `FoodSearch.recent`). -/
structure RecentFoods where
  frequent_foods : List SearchResult
  recent_foods : List SearchResult

/-- `garth` `FavoriteFoodList` (from `FavoriteFoods.list`). -/
structure FavoriteFoodList where
  items : List SearchResult
  has_more : Json

/-- `garth` `CustomFoodList` (from `CustomFood.list`). -/
structure CustomFoodList where
  items : List SearchResult
  more_data_available : Json

/-- `garth` `CustomMealList` (from `CustomMeal.list`). -/
structure CustomMealList where
  items : List SearchResult
  has_more : Json

/-- `garth` `CustomMealDetail` (from `CustomMeal.create`). -/
structure CustomMealDetail where
  custom_meal_id : Json
  name : Json
  foods : List Json
  content_summary : Option NutritionContent

/-! ### Meal resolution and response curation -/

/-- `_resolve_meal_id`, with the already-fetched meal definitions passed in
(the fetch itself is a collaborator call).  `Except.error` carries the
`str` of the raised `ValueError`. -/
def _resolve_meal_id (meals : List Meal) (meal : String) : Except String Int :=
  let upper := pyUpper (pyStrip meal)
  match meals.find? (fun m => pyUpper m.meal_name == upper) with
  | some m => .ok m.meal_id
  | none =>
    .error ("Unknown meal " ++ pyStrQuote meal ++ ". Available: " ++
      pyReprStrList (meals.map (fun m => m.meal_name)))

/-- `_curate_nutrition_content`. -/
def _curate_nutrition_content : Option NutritionContent → List (String × Json)
  | none => []
  | some nc =>
    pruneNulls
      [("serving_id", nc.serving_id),
       ("serving_unit", nc.serving_unit),
       ("number_of_units", nc.number_of_units),
       ("calories", nc.calories),
       ("protein", nc.protein),
       ("fat", nc.fat),
       ("carbs", nc.carbs),
       ("fiber", nc.fiber),
       ("sugar", nc.sugar)]

/-- `_curate_food_meta`. -/
def _curate_food_meta : Option FoodMetaData → List (String × Json)
  | none => []
  | some fm =>
    pruneNulls
      [("food_id", fm.food_id),
       ("food_name", fm.food_name),
       ("brand_name", fm.brand_name),
       ("source", fm.source)]

/-- `_curate_search_result`. -/
def _curate_search_result (sr : SearchResult) : List (String × Json) :=
  let result := _curate_food_meta sr.food_meta_data
  let result :=
    if optListTruthy sr.nutrition_contents then
      result ++ [("servings", Json.arr (((sr.nutrition_contents).getD []).map
        (fun nc => Json.obj (_curate_nutrition_content (some nc)))))]
    else result
  if !sr.is_favorite.isNull then result ++ [("is_favorite", sr.is_favorite)]
  else result

/-- `_curate_logged_food`.  `curated.update(_curate_food_meta(...))` is
modelled as list append: the food-meta keys are disjoint from `log_id`. -/
def _curate_logged_food (lf : LoggedFood) : List (String × Json) :=
  let curated := if lf.log_id.pyTruthy then [("log_id", lf.log_id)] else []
  let curated := curated ++ _curate_food_meta lf.food_meta_data
  let curated :=
    if !lf.serving_qty.isNull then curated ++ [("serving_qty", lf.serving_qty)]
    else curated
  match lf.selected_nutrition_content with
  | some nc => curated ++ [("nutrition", Json.obj (_curate_nutrition_content (some nc)))]
  | none => curated

/-- The calories/protein/fat/carbs block of `_curate_daily_log` (and, inlined
with the same text, of the `get_nutrition_summary` handler): `{}` when the
source object is `None`, otherwise the four fields null-pruned. -/
def curateMacros : Option MacroGoals → List (String × Json)
  | none => []
  | some g =>
    pruneNulls
      [("calories", g.calories),
       ("protein", g.protein),
       ("fat", g.fat),
       ("carbs", g.carbs)]

/-- The body of the `for md in log.meal_details` loop of `_curate_daily_log`. -/
def curateMealEntry (md : MealDetail) : List (String × Json) :=
  let meal_data := [("meal_name", Json.str md.meal.meal_name),
                    ("meal_id", Json.num md.meal.meal_id)]
  let meal_data :=
    match md.meal_nutrition_content with
    | some c => meal_data ++ [("totals", Json.obj (_curate_nutrition_content (some c)))]
    | none => meal_data
  match md.logged_foods with
  | some fs =>
    if fs.isEmpty then meal_data
    else meal_data ++ [("foods", Json.arr (fs.map (fun f => Json.obj (_curate_logged_food f))))]
  | none => meal_data

/-- `_curate_daily_log`. -/
def _curate_daily_log (log : DailyNutritionLog) : List (String × Json) :=
  let goals := curateMacros log.daily_nutrition_goals
  let totals := curateMacros log.daily_nutrition_content
  let meals := log.meal_details.map (fun md => Json.obj (curateMealEntry md))
  pruneNulls
    [("date", log.meal_date),
     ("daily_goals", Json.obj goals),
     ("daily_totals", Json.obj totals),
     ("meals", Json.arr meals)]

/-! ### Tool handlers

Each handler mirrors the try/except body of the corresponding `@app.tool()`
coroutine.  Arguments that only parametrize the collaborator call (dates,
queries used solely as request parameters, pagination) are represented by
the collaborator response itself; arguments that the handler echoes into its
own output or inspects locally are kept.  Handlers whose claims speak about
whether the guarded collaborator operation runs return, alongside the
response, the number of times that operation was invoked. -/

/-- A tool result: either the literal error/validation string the handler
returns, or the object passed to `json.dumps(..., indent=2)`. -/
inductive ToolResponse where
  | text (s : String) : ToolResponse
  | json (j : Json) : ToolResponse

/-- `str(x)` for a `food_id: str | int` style argument. -/
def strOfArg : Sum String Int → String
  | .inl s => s
  | .inr n => toString n

/-- `get_nutrition_log`. -/
def get_nutrition_log (fetch : Except String DailyNutritionLog) : ToolResponse :=
  match fetch with
  | .ok log => .json (Json.obj (_curate_daily_log log))
  | .error e => .text ("Error getting nutrition log: " ++ e)

/-- The `curated` dict built by the `get_nutrition_summary` handler; its
goals/totals blocks are textually the same code as in `_curate_daily_log`
and are shared here as `curateMacros`.  Unlike `_curate_daily_log`, the
final dict is not null-pruned. -/
def nutritionSummary (log : DailyNutritionLog) : List (String × Json) :=
  [("date", log.meal_date),
   ("totals", Json.obj (curateMacros log.daily_nutrition_content)),
   ("goals", Json.obj (curateMacros log.daily_nutrition_goals))]

/-- `get_nutrition_summary`. -/
def get_nutrition_summary (fetch : Except String DailyNutritionLog) : ToolResponse :=
  match fetch with
  | .ok log => .json (Json.obj (nutritionSummary log))
  | .error e => .text ("Error getting nutrition summary: " ++ e)

/-- `get_nutrition_settings`. -/
def get_nutrition_settings (fetch : Except String NutritionSettings) : ToolResponse :=
  match fetch with
  | .error e => .text ("Error getting nutrition settings: " ++ e)
  | .ok s =>
    let curated :=
      [("calorie_goal", s.calorie_goal),
       ("weight_change_type", s.weight_change_type),
       ("auto_calorie_adjustment", s.auto_calorie_adjustment),
       ("region_code", s.region_code),
       ("language_code", s.language_code),
       ("starting_weight_grams", s.starting_weight),
       ("target_weight_goal_grams", s.target_weight_goal),
       ("target_date", s.target_date)]
    let curated :=
      match s.macro_goals with
      | some mg =>
        curated ++ [("macro_goals", Json.obj
          [("calories", mg.calories), ("protein", mg.protein),
           ("fat", mg.fat), ("carbs", mg.carbs)])]
      | none => curated
    .json (Json.obj (pruneNulls curated))

/-- `search_foods`. -/
def search_foods (query : String) (search : Except String SearchResults) : ToolResponse :=
  match search with
  | .error e => .text ("Error searching foods: " ++ e)
  | .ok results =>
    .json (Json.obj
      [("query", Json.str query),
       ("results", Json.arr (results.results.map (fun r => Json.obj (_curate_search_result r)))),
       ("has_more", results.more_data_available)])

/-- `get_recent_foods`; `mealDefs` is the `MealDefinitions.get` response
consumed by `_resolve_meal_id`, `recentOp` the `FoodSearch.recent` call.
The second component counts invocations of `recentOp`. -/
def get_recent_foods (meal : String) (mealDefs : Except String (List Meal))
    (recentOp : Int → Except String RecentFoods) : ToolResponse × Nat :=
  match mealDefs with
  | .error e => (.text ("Error getting recent foods: " ++ e), 0)
  | .ok meals =>
    match _resolve_meal_id meals meal with
    | .error e => (.text ("Error getting recent foods: " ++ e), 0)
    | .ok meal_id =>
      match recentOp meal_id with
      | .error e => (.text ("Error getting recent foods: " ++ e), 1)
      | .ok recent =>
        (.json (Json.obj
          [("meal", Json.str (pyUpper meal)),
           ("frequent_foods", Json.arr (recent.frequent_foods.map
              (fun f => Json.obj (_curate_search_result f)))),
           ("recent_foods", Json.arr (recent.recent_foods.map
              (fun f => Json.obj (_curate_search_result f))))]), 1)

/-- `list_favorite_foods`. -/
def list_favorite_foods (fetch : Except String FavoriteFoodList) : ToolResponse :=
  match fetch with
  | .error e => .text ("Error listing favorites: " ++ e)
  | .ok favs =>
    .json (Json.obj
      [("favorites", Json.arr (favs.items.map (fun f => Json.obj (_curate_search_result f)))),
       ("has_more", favs.has_more)])

/-- `list_custom_foods`. -/
def list_custom_foods (fetch : Except String CustomFoodList) : ToolResponse :=
  match fetch with
  | .error e => .text ("Error listing custom foods: " ++ e)
  | .ok foods =>
    .json (Json.obj
      [("custom_foods", Json.arr (foods.items.map (fun f => Json.obj (_curate_search_result f)))),
       ("has_more", foods.more_data_available)])

/-- `log_food`; `addOp` is `FoodLog.add` as a function of the resolved
meal id. -/
def log_food (meal : String) (mealDefs : Except String (List Meal))
    (addOp : Int → Except String DailyNutritionLog) : ToolResponse :=
  match mealDefs with
  | .error e => .text ("Error logging food: " ++ e)
  | .ok meals =>
    match _resolve_meal_id meals meal with
    | .error e => .text ("Error logging food: " ++ e)
    | .ok meal_id =>
      match addOp meal_id with
      | .error e => .text ("Error logging food: " ++ e)
      | .ok log => .json (Json.obj (_curate_daily_log log))

/-- `quick_add_nutrition`; `addOp` is `QuickAdd.add` as a function of the
resolved meal id. -/
def quick_add_nutrition (meal : String) (mealDefs : Except String (List Meal))
    (addOp : Int → Except String DailyNutritionLog) : ToolResponse :=
  match mealDefs with
  | .error e => .text ("Error quick-adding nutrition: " ++ e)
  | .ok meals =>
    match _resolve_meal_id meals meal with
    | .error e => .text ("Error quick-adding nutrition: " ++ e)
    | .ok meal_id =>
      match addOp meal_id with
      | .error e => .text ("Error quick-adding nutrition: " ++ e)
      | .ok log => .json (Json.obj (_curate_daily_log log))

/-- `update_food_log`; `updateOp` is `FoodLog.update` as a function of the
resolved meal id. -/
def update_food_log (meal : String) (mealDefs : Except String (List Meal))
    (updateOp : Int → Except String DailyNutritionLog) : ToolResponse :=
  match mealDefs with
  | .error e => .text ("Error updating food log: " ++ e)
  | .ok meals =>
    match _resolve_meal_id meals meal with
    | .error e => .text ("Error updating food log: " ++ e)
    | .ok meal_id =>
      match updateOp meal_id with
      | .error e => .text ("Error updating food log: " ++ e)
      | .ok log => .json (Json.obj (_curate_daily_log log))

/-- The id list parsed by `remove_food_log`:
`[lid.strip() for lid in log_ids.split(",") if lid.strip()]`. -/
def parsedLogIds (log_ids : String) : List String :=
  ((pySplitComma log_ids).map pyStrip).filter (fun lid => lid != "")

/-- `remove_food_log`; `removeOp` is `FoodLog.remove`.  The second component
counts invocations of `removeOp`. -/
def remove_food_log (date : String) (log_ids : String)
    (removeOp : List String → Except String Unit) : ToolResponse × Nat :=
  let ids := parsedLogIds log_ids
  if ids.isEmpty then (.text "Error: no log_ids provided", 0)
  else
    match removeOp ids with
    | .error e => (.text ("Error removing food log entries: " ++ e), 1)
    | .ok _ =>
      (.json (Json.obj
        [("status", Json.str "success"),
         ("date", Json.str date),
         ("removed_count", Json.num ids.length)]), 1)

/-- `add_favorite_food`. -/
def add_favorite_food (food_id : Sum String Int)
    (addOp : Except String Unit) : ToolResponse :=
  let fid := strOfArg food_id
  match addOp with
  | .error e => .text ("Error adding favorite: " ++ e)
  | .ok _ =>
    .json (Json.obj [("status", Json.str "success"), ("food_id", Json.str fid)])

/-- `remove_favorite_food`. -/
def remove_favorite_food (food_id : Sum String Int)
    (removeOp : Except String Unit) : ToolResponse :=
  let fid := strOfArg food_id
  match removeOp with
  | .error e => .text ("Error removing favorite: " ++ e)
  | .ok _ =>
    .json (Json.obj [("status", Json.str "success"), ("food_id", Json.str fid)])

/-- `create_custom_food`. -/
def create_custom_food (createOp : Except String SearchResult) : ToolResponse :=
  match createOp with
  | .error e => .text ("Error creating custom food: " ++ e)
  | .ok result => .json (Json.obj (_curate_search_result result))

/-- `delete_custom_food`. -/
def delete_custom_food (food_id : Sum String Int)
    (deleteOp : Except String Unit) : ToolResponse :=
  let fid := strOfArg food_id
  match deleteOp with
  | .error e => .text ("Error deleting custom food: " ++ e)
  | .ok _ =>
    .json (Json.obj [("status", Json.str "success"), ("food_id", Json.str fid)])

/-- `list_custom_meals`. -/
def list_custom_meals (fetch : Except String CustomMealList) : ToolResponse :=
  match fetch with
  | .error e => .text ("Error listing custom meals: " ++ e)
  | .ok meals =>
    .json (Json.obj
      [("custom_meals", Json.arr (meals.items.map (fun m => Json.obj (_curate_search_result m)))),
       ("has_more", meals.has_more)])

/-- `create_custom_meal`.  `foods_json` is the `str | list` argument;
`loads` is `json.loads` (its `Except.error` is a `json.JSONDecodeError`,
caught by the dedicated except clause); `createOp` is `CustomMeal.create`.
The second component counts invocations of `createOp`. -/
def create_custom_meal (foods_json : Sum String (List Json))
    (loads : String → Except Unit Json)
    (createOp : List Json → Except String CustomMealDetail) : ToolResponse × Nat :=
  let foodsRes : Except ToolResponse (List Json) :=
    match foods_json with
    | .inr l => .ok l
    | .inl s =>
      match loads s with
      | .error _ => .error (.text "Error: foods_json is not valid JSON")
      | .ok (Json.arr l) => .ok l
      | .ok _ => .error (.text "Error: foods_json must be a JSON array")
  match foodsRes with
  | .error r => (r, 0)
  | .ok foods =>
    match createOp foods with
    | .error e => (.text ("Error creating custom meal: " ++ e), 1)
    | .ok result =>
      let curated :=
        [("custom_meal_id", result.custom_meal_id),
         ("name", result.name),
         ("food_count", Json.num result.foods.length)]
      let curated :=
        match result.content_summary with
        | some cs => curated ++ [("totals", Json.obj (_curate_nutrition_content (some cs)))]
        | none => curated
      (.json (Json.obj curated), 1)

/-! ### Fixtures

Concrete values mirroring `tests/fixtures/garmin_responses.py`
(`MOCK_MEAL_DEFINITIONS` and `MOCK_DAILY_NUTRITION_LOG`); the fixture only
carries integral numbers, so `Json.num` represents them exactly. -/

/-- The four meal definitions of `MOCK_MEAL_DEFINITIONS`. -/
def mealDefsFixture : List Meal :=
  [⟨645041, "Breakfast"⟩, ⟨645042, "Lunch"⟩, ⟨645043, "Dinner"⟩, ⟨645044, "Snacks"⟩]

/-- The single logged food of the breakfast entry of
`MOCK_DAILY_NUTRITION_LOG`. -/
def oatmealFood : LoggedFood :=
  { log_id := Json.str "abc123",
    food_meta_data := some
      { food_id := Json.str "5367", food_name := Json.str "Oatmeal",
        brand_name := Json.null, source := Json.str "FATSECRET" },
    serving_qty := Json.num 1,
    selected_nutrition_content := some
      { serving_id := Json.str "54047", serving_unit := Json.str "cup",
        number_of_units := Json.null, calories := Json.num 150,
        protein := Json.num 5, fat := Json.num 3, carbs := Json.num 27,
        fiber := Json.null, sugar := Json.null } }

/-- The breakfast entry of `MOCK_DAILY_NUTRITION_LOG`. -/
def breakfastDetail : MealDetail :=
  { meal := ⟨645041, "Breakfast"⟩,
    meal_nutrition_content := some
      { serving_id := Json.null, serving_unit := Json.null,
        number_of_units := Json.null, calories := Json.num 450,
        protein := Json.num 25, fat := Json.num 15, carbs := Json.num 55,
        fiber := Json.null, sugar := Json.null },
    logged_foods := some [oatmealFood] }

/-- The lunch entry of `MOCK_DAILY_NUTRITION_LOG`; note its `loggedFoods`
is the observed empty list. -/
def lunchDetail : MealDetail :=
  { meal := ⟨645042, "Lunch"⟩,
    meal_nutrition_content := some
      { serving_id := Json.null, serving_unit := Json.null,
        number_of_units := Json.null, calories := Json.num 700,
        protein := Json.num 40, fat := Json.num 25, carbs := Json.num 80,
        fiber := Json.null, sugar := Json.null },
    logged_foods := some [] }

/-- `MOCK_DAILY_NUTRITION_LOG`. -/
def dailyLogFixture : DailyNutritionLog :=
  { meal_date := Json.str "2024-01-15",
    daily_nutrition_goals := some ⟨Json.num 2200, Json.num 120, Json.num 73, Json.num 275⟩,
    daily_nutrition_content := some ⟨Json.num 1850, Json.num 95, Json.num 62, Json.num 220⟩,
    meal_details := [breakfastDetail, lunchDetail] }

/-! ### Helper lemmas -/

/-- Does the curated dict bind key `k`. -/
def hasKey (k : String) (d : List (String × Json)) : Bool :=
  d.any (fun p => p.1 == k)

theorem hasKey_append (k : String) (a b : List (String × Json)) :
    hasKey k (a ++ b) = (hasKey k a || hasKey k b) := by
  simp [hasKey, List.any_append]

theorem hasKey_pruneNulls (k : String) (l : List (String × Json)) :
    hasKey k (pruneNulls l) = l.any (fun p => p.1 == k && !p.2.isNull) := by
  rw [hasKey, pruneNulls, List.any_filter]
  congr 1
  funext p
  exact Bool.and_comm _ _

theorem pyTruthy_not_null (j : Json) (h : j.pyTruthy = true) : j.isNull = false := by
  cases j <;> simp_all [Json.pyTruthy, Json.isNull]

theorem all_not_null_pruneNulls (l : List (String × Json)) :
    (pruneNulls l).all (fun p => !p.2.isNull) = true := by
  simp [pruneNulls, List.all_eq_true, List.mem_filter]

/-- A predicate that fails on every element of a list finds nothing in it. -/
theorem find?_first {α : Type} (p : α → Bool) (pre : List α) (m : α) (post : List α)
    (hpre : ∀ x ∈ pre, p x = false) (hm : p m = true) :
    (pre ++ m :: post).find? p = some m := by
  induction pre with
  | nil => simp [List.find?, hm]
  | cons a t ih =>
    have ha := hpre a (by simp)
    simp only [List.cons_append, List.find?, ha]
    exact ih (fun x hx => hpre x (by simp [hx]))

/-- The curated dict inside a `.json` response, for stating envelope facts. -/
def respObj : ToolResponse → List (String × Json)
  | .json (Json.obj o) => o
  | _ => []

/-! ### Claims -/

/-- C2: `_resolve_meal_id` trims surrounding whitespace, upper-cases the
input, and returns the `meal_id` of the first definition whose `meal_name`
matches case-insensitively; in particular `"breakfast"`, `"BREAKFAST"`,
`"Breakfast"` (and a whitespace-padded variant) all resolve to `645041`
against the fixture definitions containing `⟨645041, "Breakfast"⟩`. -/
theorem C2_resolve_meal_id_first_case_insensitive_match :
    (∀ (pre post : List Meal) (m : Meal) (meal : String),
        (∀ p ∈ pre, pyUpper p.meal_name ≠ pyUpper (pyStrip meal)) →
        pyUpper m.meal_name = pyUpper (pyStrip meal) →
        _resolve_meal_id (pre ++ m :: post) meal = .ok m.meal_id) ∧
    _resolve_meal_id mealDefsFixture "breakfast" = .ok 645041 ∧
    _resolve_meal_id mealDefsFixture "BREAKFAST" = .ok 645041 ∧
    _resolve_meal_id mealDefsFixture "Breakfast" = .ok 645041 ∧
    _resolve_meal_id mealDefsFixture "  breakfast " = .ok 645041 := by
  refine ⟨?_, rfl, rfl, rfl, rfl⟩
  intro pre post m meal hpre hm
  have hfind : (pre ++ m :: post).find?
      (fun d => pyUpper d.meal_name == pyUpper (pyStrip meal)) = some m := by
    apply find?_first
    · intro x hx
      simpa using hpre x hx
    · simpa using hm
  unfold _resolve_meal_id
  simp [hfind]

/-- Witness for C2: the general first-match clause applied at a concrete
list whose first element does not match. -/
theorem C2_resolve_meal_id_witness :
    _resolve_meal_id [⟨645042, "Lunch"⟩, ⟨645041, "Breakfast"⟩] "breakfast" = .ok 645041 :=
  C2_resolve_meal_id_first_case_insensitive_match.1
    [⟨645042, "Lunch"⟩] [] ⟨645041, "Breakfast"⟩ "breakfast" (by decide) (by decide)

/-- C3 as frozen is false: on an unknown meal the `get_recent_foods` handler
returns `Error getting recent foods: Unknown meal '<name>'. Available: [...]`
(the generic per-tool wrapper applied to the `ValueError` text), not the
literal shape `Error: Unknown meal '<name>'. Available: [...]`; the guarded
collaborator call is indeed never invoked (count 0). -/
theorem C3_counterexample :
    get_recent_foods "BRUNCH" (.ok mealDefsFixture) (fun _ => .ok ⟨[], []⟩) =
      (.text ("Error getting recent foods: " ++ ("Unknown meal " ++ pyStrQuote "BRUNCH" ++
        ". Available: " ++ pyReprStrList ["Breakfast", "Lunch", "Dinner", "Snacks"])), 0) ∧
    ("Error getting recent foods: " ++ ("Unknown meal " ++ pyStrQuote "BRUNCH" ++
        ". Available: " ++ pyReprStrList ["Breakfast", "Lunch", "Dinner", "Snacks"])) ≠
      ("Error: Unknown meal " ++ pyStrQuote "BRUNCH" ++
        ". Available: " ++ pyReprStrList ["Breakfast", "Lunch", "Dinner", "Snacks"]) :=
  ⟨rfl, by decide⟩

/-- C3 amended: on a meal name matching no definition, the handler returns
the per-tool error wrapper around `Unknown meal '<name>'. Available: [...]`
where the bracketed list enumerates exactly the meal names of that day's
definitions, and the guarded collaborator operation is never invoked. -/
theorem C3_unknown_meal_error (meals : List Meal) (meal : String)
    (recentOp : Int → Except String RecentFoods)
    (h : ∀ m ∈ meals, pyUpper m.meal_name ≠ pyUpper (pyStrip meal)) :
    get_recent_foods meal (.ok meals) recentOp =
      (.text ("Error getting recent foods: " ++ ("Unknown meal " ++ pyStrQuote meal ++
        ". Available: " ++ pyReprStrList (meals.map (fun m => m.meal_name)))), 0) := by
  have hfind : meals.find?
      (fun d => pyUpper d.meal_name == pyUpper (pyStrip meal)) = none := by
    rw [List.find?_eq_none]
    intro x hx
    simpa using h x hx
  unfold get_recent_foods _resolve_meal_id
  simp [hfind]

/-- Witness for C3 amended, at the unknown meal `"BRUNCH"`. -/
theorem C3_unknown_meal_error_witness :
    get_recent_foods "BRUNCH" (.ok mealDefsFixture) (fun _ => .ok ⟨[], []⟩) =
      (.text ("Error getting recent foods: " ++ ("Unknown meal " ++ pyStrQuote "BRUNCH" ++
        ". Available: " ++ pyReprStrList (mealDefsFixture.map (fun m => m.meal_name)))), 0) :=
  C3_unknown_meal_error mealDefsFixture "BRUNCH" (fun _ => .ok ⟨[], []⟩) (by decide)

/-- C9 as frozen is false: the caller-facing envelopes do not keep two
distinct flag names; even where the source attribute is
`more_data_available` (search, custom foods) the output key is `has_more`,
and no envelope carries a `more_data_available` key. -/
theorem C9_counterexample :
    search_foods "apple" (.ok ⟨[], Json.bool true⟩) =
      .json (Json.obj [("query", Json.str "apple"), ("results", Json.arr []),
        ("has_more", Json.bool true)]) ∧
    list_custom_foods (.ok ⟨[], Json.bool false⟩) =
      .json (Json.obj [("custom_foods", Json.arr []), ("has_more", Json.bool false)]) ∧
    hasKey "more_data_available"
      (respObj (search_foods "apple" (.ok ⟨[], Json.bool true⟩))) = false ∧
    hasKey "more_data_available"
      (respObj (list_custom_foods (.ok ⟨[], Json.bool false⟩))) = false :=
  ⟨rfl, rfl, rfl, rfl⟩

/-- C9 amended: all four listing envelopes expose the availability flag
under the single caller-facing key `has_more`, copying its value from the
remote attribute of each endpoint (`more_data_available` for search and
custom foods, `has_more` for favorites and custom meals); no envelope
exposes a `more_data_available` key. -/
theorem C9_envelope_flag_unified (q : String) (sr : SearchResults)
    (fl : FavoriteFoodList) (cf : CustomFoodList) (cm : CustomMealList) :
    (jlookup "has_more" (respObj (search_foods q (.ok sr))) = some sr.more_data_available ∧
     objKeys (respObj (search_foods q (.ok sr))) = ["query", "results", "has_more"]) ∧
    (jlookup "has_more" (respObj (list_favorite_foods (.ok fl))) = some fl.has_more ∧
     objKeys (respObj (list_favorite_foods (.ok fl))) = ["favorites", "has_more"]) ∧
    (jlookup "has_more" (respObj (list_custom_foods (.ok cf))) = some cf.more_data_available ∧
     objKeys (respObj (list_custom_foods (.ok cf))) = ["custom_foods", "has_more"]) ∧
    (jlookup "has_more" (respObj (list_custom_meals (.ok cm))) = some cm.has_more ∧
     objKeys (respObj (list_custom_meals (.ok cm))) = ["custom_meals", "has_more"]) ∧
    hasKey "more_data_available" (respObj (search_foods q (.ok sr))) = false ∧
    hasKey "more_data_available" (respObj (list_favorite_foods (.ok fl))) = false ∧
    hasKey "more_data_available" (respObj (list_custom_foods (.ok cf))) = false ∧
    hasKey "more_data_available" (respObj (list_custom_meals (.ok cm))) = false :=
  ⟨⟨rfl, rfl⟩, ⟨rfl, rfl⟩, ⟨rfl, rfl⟩, ⟨rfl, rfl⟩, rfl, rfl, rfl, rfl⟩

/-- C4: every tool handler catches the collaborator exception at its
boundary and returns a textual error instead of raising (the handlers are
total functions into `ToolResponse`); a collaborator failure with message
`"API down"` yields, for each of the 17 handlers, the per-tool wrapped
text, and each such text contains both `"Error"` and `"API down"`. -/
theorem C4_handlers_catch_all :
    (get_nutrition_log (.error "API down") = .text "Error getting nutrition log: API down") ∧
    (get_nutrition_summary (.error "API down") = .text "Error getting nutrition summary: API down") ∧
    (get_nutrition_settings (.error "API down") = .text "Error getting nutrition settings: API down") ∧
    (∀ q, search_foods q (.error "API down") = .text "Error searching foods: API down") ∧
    (∀ meal op, get_recent_foods meal (.error "API down") op =
      (.text "Error getting recent foods: API down", 0)) ∧
    (list_favorite_foods (.error "API down") = .text "Error listing favorites: API down") ∧
    (list_custom_foods (.error "API down") = .text "Error listing custom foods: API down") ∧
    (∀ meal op, log_food meal (.error "API down") op = .text "Error logging food: API down") ∧
    (∀ meal op, quick_add_nutrition meal (.error "API down") op =
      .text "Error quick-adding nutrition: API down") ∧
    (∀ meal op, update_food_log meal (.error "API down") op =
      .text "Error updating food log: API down") ∧
    (∀ fid, add_favorite_food fid (.error "API down") = .text "Error adding favorite: API down") ∧
    (∀ fid, remove_favorite_food fid (.error "API down") =
      .text "Error removing favorite: API down") ∧
    (create_custom_food (.error "API down") = .text "Error creating custom food: API down") ∧
    (∀ fid, delete_custom_food fid (.error "API down") =
      .text "Error deleting custom food: API down") ∧
    (list_custom_meals (.error "API down") = .text "Error listing custom meals: API down") ∧
    (∀ meals meal op mid, _resolve_meal_id meals meal = .ok mid → op mid = .error "API down" →
      get_recent_foods meal (.ok meals) op = (.text "Error getting recent foods: API down", 1)) ∧
    (∀ meals meal op mid, _resolve_meal_id meals meal = .ok mid → op mid = .error "API down" →
      log_food meal (.ok meals) op = .text "Error logging food: API down") ∧
    (∀ date log_ids op, parsedLogIds log_ids ≠ [] →
      op (parsedLogIds log_ids) = .error "API down" →
      remove_food_log date log_ids op = (.text "Error removing food log entries: API down", 1)) ∧
    (∀ l loads op, op l = .error "API down" →
      create_custom_meal (.inr l) loads op = (.text "Error creating custom meal: API down", 1)) ∧
    (["Error getting nutrition log: API down", "Error getting nutrition summary: API down",
      "Error getting nutrition settings: API down", "Error searching foods: API down",
      "Error getting recent foods: API down", "Error listing favorites: API down",
      "Error listing custom foods: API down", "Error logging food: API down",
      "Error quick-adding nutrition: API down", "Error updating food log: API down",
      "Error adding favorite: API down", "Error removing favorite: API down",
      "Error creating custom food: API down", "Error deleting custom food: API down",
      "Error listing custom meals: API down", "Error removing food log entries: API down",
      "Error creating custom meal: API down"].all
        (fun s => strContains s "Error" && strContains s "API down") = true) := by
  refine ⟨rfl, rfl, rfl, fun q => rfl, fun meal op => rfl, rfl, rfl, fun meal op => rfl,
    fun meal op => rfl, fun meal op => rfl, fun fid => rfl, fun fid => rfl, rfl,
    fun fid => rfl, rfl, ?_, ?_, ?_, ?_, by decide⟩
  · intro meals meal op mid hres hop
    simp [get_recent_foods, hres, hop]
  · intro meals meal op mid hres hop
    simp [log_food, hres, hop]
  · intro date log_ids op hne hop
    have hemp : (parsedLogIds log_ids).isEmpty = false := by
      cases hl : parsedLogIds log_ids with
      | nil => exact absurd hl hne
      | cons a t => rfl
    simp [remove_food_log, hemp, hop]
  · intro l loads op hop
    simp [create_custom_meal, hop]

/-- Witness for C4: the conditional clauses applied at concrete inputs. -/
theorem C4_handlers_catch_all_witness :
    get_recent_foods "Breakfast" (.ok mealDefsFixture) (fun _ => .error "API down") =
      (.text "Error getting recent foods: API down", 1) ∧
    log_food "Breakfast" (.ok mealDefsFixture) (fun _ => .error "API down") =
      .text "Error logging food: API down" ∧
    remove_food_log "2024-01-15" "abc123,def456" (fun _ => .error "API down") =
      (.text "Error removing food log entries: API down", 1) ∧
    create_custom_meal (.inr []) (fun _ => .error ()) (fun _ => .error "API down") =
      (.text "Error creating custom meal: API down", 1) := by
  obtain ⟨-, -, -, -, -, -, -, -, -, -, -, -, -, -, -, hrecent, hlog, hremove, hcreate, -⟩ :=
    C4_handlers_catch_all
  exact ⟨hrecent mealDefsFixture "Breakfast" (fun _ => .error "API down") 645041 rfl rfl,
    hlog mealDefsFixture "Breakfast" (fun _ => .error "API down") 645041 rfl rfl,
    hremove "2024-01-15" "abc123,def456" (fun _ => .error "API down") (by decide) rfl,
    hcreate [] (fun _ => .error ()) (fun _ => .error "API down") rfl⟩

/-- C5: `remove_food_log` splits `log_ids` on commas, trims entries and
drops empty ones; with no surviving ids (e.g. `log_ids=""`) it returns the
`no log_ids` error without invoking the collaborator, and otherwise invokes
the removal exactly once and reports `removed_count` equal to the number of
parsed ids (2 for `"abc123,def456"`). -/
theorem C5_remove_food_log_batch :
    (∀ (date : String) (removeOp : List String → Except String Unit),
        remove_food_log date "" removeOp = (.text "Error: no log_ids provided", 0)) ∧
    (∀ (date log_ids : String) (removeOp : List String → Except String Unit),
        parsedLogIds log_ids ≠ [] →
        (remove_food_log date log_ids removeOp).2 = 1 ∧
        (removeOp (parsedLogIds log_ids) = .ok () →
          remove_food_log date log_ids removeOp =
            (.json (Json.obj [("status", Json.str "success"), ("date", Json.str date),
              ("removed_count", Json.num (parsedLogIds log_ids).length)]), 1))) ∧
    parsedLogIds "abc123,def456" = ["abc123", "def456"] ∧
    parsedLogIds " abc123 , def456 ," = ["abc123", "def456"] ∧
    (∀ (date : String),
        remove_food_log date "abc123,def456" (fun _ => .ok ()) =
          (.json (Json.obj [("status", Json.str "success"), ("date", Json.str date),
            ("removed_count", Json.num 2)]), 1)) := by
  refine ⟨fun date removeOp => rfl, ?_, by decide, by decide, fun date => rfl⟩
  intro date log_ids removeOp hne
  have hemp : (parsedLogIds log_ids).isEmpty = false := by
    cases hl : parsedLogIds log_ids with
    | nil => exact absurd hl hne
    | cons a t => rfl
  constructor
  · cases hop : removeOp (parsedLogIds log_ids) <;> simp [remove_food_log, hemp, hop]
  · intro hop
    simp [remove_food_log, hemp, hop]

/-- Witness for C5: the non-empty clause applied at `"abc123,def456"`. -/
theorem C5_remove_food_log_batch_witness :
    remove_food_log "2024-01-15" "abc123,def456" (fun _ => .ok ()) =
      (.json (Json.obj [("status", Json.str "success"), ("date", Json.str "2024-01-15"),
        ("removed_count", Json.num (parsedLogIds "abc123,def456").length)]), 1) :=
  (C5_remove_food_log_batch.2.1 "2024-01-15" "abc123,def456" (fun _ => .ok ())
    (by decide)).2 rfl

/-- C6: `create_custom_meal` returns the dedicated `not valid JSON` error
when parsing the textual `foods_json` fails and the distinct
`must be a JSON array` error when it parses to a non-array, in both cases
without invoking the create operation (count 0); an already-parsed list
bypasses parsing entirely (the result does not depend on the parser) and is
handed to the create operation as-is. -/
theorem C6_create_custom_meal_parse :
    (∀ (s : String) (loads : String → Except Unit Json)
        (createOp : List Json → Except String CustomMealDetail),
        loads s = .error () →
        create_custom_meal (.inl s) loads createOp =
          (.text "Error: foods_json is not valid JSON", 0)) ∧
    (∀ (s : String) (loads : String → Except Unit Json)
        (createOp : List Json → Except String CustomMealDetail) (j : Json),
        loads s = .ok j → (∀ l, j ≠ Json.arr l) →
        create_custom_meal (.inl s) loads createOp =
          (.text "Error: foods_json must be a JSON array", 0)) ∧
    (∀ (l : List Json) (loads loads2 : String → Except Unit Json)
        (createOp : List Json → Except String CustomMealDetail),
        create_custom_meal (.inr l) loads createOp =
          create_custom_meal (.inr l) loads2 createOp) ∧
    (∀ (l : List Json) (loads : String → Except Unit Json)
        (createOp : List Json → Except String CustomMealDetail) (e : String),
        createOp l = .error e →
        create_custom_meal (.inr l) loads createOp =
          (.text ("Error creating custom meal: " ++ e), 1)) := by
  refine ⟨?_, ?_, fun l loads loads2 createOp => rfl, ?_⟩
  · intro s loads createOp hloads
    simp [create_custom_meal, hloads]
  · intro s loads createOp j hloads hnotarr
    cases j with
    | arr l => exact absurd rfl (hnotarr l)
    | null => simp [create_custom_meal, hloads]
    | bool b => simp [create_custom_meal, hloads]
    | num n => simp [create_custom_meal, hloads]
    | str t => simp [create_custom_meal, hloads]
    | obj o => simp [create_custom_meal, hloads]
  · intro l loads createOp e hop
    simp [create_custom_meal, hop]

/-- Witness for C6: the parse-failure clause at the literal `"not json"`
with a parser that rejects it, and the non-array clause with a parser that
yields an object. -/
theorem C6_create_custom_meal_parse_witness :
    create_custom_meal (.inl "not json") (fun _ => .error ())
        (fun _ => .ok ⟨Json.null, Json.null, [], none⟩) =
      (.text "Error: foods_json is not valid JSON", 0) ∧
    create_custom_meal (.inl "42") (fun _ => .ok (Json.num 42))
        (fun _ => .ok ⟨Json.null, Json.null, [], none⟩) =
      (.text "Error: foods_json must be a JSON array", 0) :=
  ⟨C6_create_custom_meal_parse.1 "not json" (fun _ => .error ())
      (fun _ => .ok ⟨Json.null, Json.null, [], none⟩) rfl,
    C6_create_custom_meal_parse.2.1 "42" (fun _ => .ok (Json.num 42))
      (fun _ => .ok ⟨Json.null, Json.null, [], none⟩) (Json.num 42) rfl
      (fun l h => by cases h)⟩

theorem hasKey_nil (k : String) : hasKey k [] = false := rfl

theorem hasKey_cons (k k' : String) (v : Json) (t : List (String × Json)) :
    hasKey k ((k', v) :: t) = ((k' == k) || hasKey k t) := rfl

theorem curate_nc_no_null (onc : Option NutritionContent) :
    (_curate_nutrition_content onc).all (fun p => !p.2.isNull) = true := by
  cases onc with
  | none => rfl
  | some nc => exact all_not_null_pruneNulls _

theorem curate_food_meta_no_null (ofm : Option FoodMetaData) :
    (_curate_food_meta ofm).all (fun p => !p.2.isNull) = true := by
  cases ofm with
  | none => rfl
  | some fm => exact all_not_null_pruneNulls _

theorem curate_logged_food_no_null (lf : LoggedFood) :
    (_curate_logged_food lf).all (fun p => !p.2.isNull) = true := by
  have hlog : (if lf.log_id.pyTruthy then [("log_id", lf.log_id)]
      else ([] : List (String × Json))).all (fun p => !p.2.isNull) = true := by
    cases hlid : lf.log_id.pyTruthy with
    | false => rfl
    | true => simp [pyTruthy_not_null _ hlid]
  have hbase : ((if lf.log_id.pyTruthy then [("log_id", lf.log_id)]
      else ([] : List (String × Json))) ++ _curate_food_meta lf.food_meta_data).all
      (fun p => !p.2.isNull) = true := by
    simp [List.all_append, hlog, curate_food_meta_no_null]
  have hqtyl : ∀ (c : List (String × Json)), c.all (fun p => !p.2.isNull) = true →
      ((if !lf.serving_qty.isNull then c ++ [("serving_qty", lf.serving_qty)] else c).all
        (fun p => !p.2.isNull)) = true := by
    intro c hc
    cases hq : lf.serving_qty.isNull with
    | true => simpa [hq] using hc
    | false => simp [hq, List.all_append, hc]
  unfold _curate_logged_food
  cases hsel : lf.selected_nutrition_content with
  | none => exact hqtyl _ hbase
  | some nc => rw [List.all_append, hqtyl _ hbase]; rfl

theorem curate_daily_log_no_null (log : DailyNutritionLog) :
    (_curate_daily_log log).all (fun p => !p.2.isNull) = true :=
  all_not_null_pruneNulls _

theorem hasKey_curate_nc (nc : NutritionContent) :
    hasKey "serving_id" (_curate_nutrition_content (some nc)) = !nc.serving_id.isNull ∧
    hasKey "serving_unit" (_curate_nutrition_content (some nc)) = !nc.serving_unit.isNull ∧
    hasKey "number_of_units" (_curate_nutrition_content (some nc)) = !nc.number_of_units.isNull ∧
    hasKey "calories" (_curate_nutrition_content (some nc)) = !nc.calories.isNull ∧
    hasKey "protein" (_curate_nutrition_content (some nc)) = !nc.protein.isNull ∧
    hasKey "fat" (_curate_nutrition_content (some nc)) = !nc.fat.isNull ∧
    hasKey "carbs" (_curate_nutrition_content (some nc)) = !nc.carbs.isNull ∧
    hasKey "fiber" (_curate_nutrition_content (some nc)) = !nc.fiber.isNull ∧
    hasKey "sugar" (_curate_nutrition_content (some nc)) = !nc.sugar.isNull := by
  unfold _curate_nutrition_content
  refine ⟨?_, ?_, ?_, ?_, ?_, ?_, ?_, ?_, ?_⟩ <;> (rw [hasKey_pruneNulls]; simp)

theorem hasKey_curate_fm (fm : FoodMetaData) :
    hasKey "food_id" (_curate_food_meta (some fm)) = !fm.food_id.isNull ∧
    hasKey "food_name" (_curate_food_meta (some fm)) = !fm.food_name.isNull ∧
    hasKey "brand_name" (_curate_food_meta (some fm)) = !fm.brand_name.isNull ∧
    hasKey "source" (_curate_food_meta (some fm)) = !fm.source.isNull := by
  unfold _curate_food_meta
  refine ⟨?_, ?_, ?_, ?_⟩ <;> (rw [hasKey_pruneNulls]; simp)

theorem hasKey_food_meta_other (ofm : Option FoodMetaData) :
    hasKey "log_id" (_curate_food_meta ofm) = false ∧
    hasKey "serving_qty" (_curate_food_meta ofm) = false ∧
    hasKey "nutrition" (_curate_food_meta ofm) = false ∧
    hasKey "servings" (_curate_food_meta ofm) = false ∧
    hasKey "is_favorite" (_curate_food_meta ofm) = false := by
  cases ofm with
  | none => exact ⟨rfl, rfl, rfl, rfl, rfl⟩
  | some fm =>
    unfold _curate_food_meta
    refine ⟨?_, ?_, ?_, ?_, ?_⟩ <;> (rw [hasKey_pruneNulls]; simp)

theorem hasKey_logged_food (lf : LoggedFood) :
    hasKey "log_id" (_curate_logged_food lf) = lf.log_id.pyTruthy ∧
    hasKey "serving_qty" (_curate_logged_food lf) = !lf.serving_qty.isNull ∧
    hasKey "nutrition" (_curate_logged_food lf) = lf.selected_nutrition_content.isSome := by
  obtain ⟨h1, h2, h3, -, -⟩ := hasKey_food_meta_other lf.food_meta_data
  unfold _curate_logged_food
  cases hsel : lf.selected_nutrition_content <;>
    cases hqty : lf.serving_qty.isNull <;>
      cases hlid : lf.log_id.pyTruthy <;>
        simp [hasKey_append, hasKey_cons, hasKey_nil, h1, h2, h3, hqty, hlid]

theorem hasKey_meal_entry (md : MealDetail) :
    hasKey "meal_name" (curateMealEntry md) = true ∧
    hasKey "meal_id" (curateMealEntry md) = true ∧
    hasKey "totals" (curateMealEntry md) = md.meal_nutrition_content.isSome ∧
    hasKey "foods" (curateMealEntry md) = optListTruthy md.logged_foods := by
  unfold curateMealEntry
  cases hnc : md.meal_nutrition_content with
  | none =>
    cases hlf : md.logged_foods with
    | none => simp [hasKey_append, hasKey_cons, hasKey_nil, optListTruthy]
    | some fs =>
      cases hfs : fs.isEmpty <;>
        simp [hasKey_append, hasKey_cons, hasKey_nil, optListTruthy, hfs]
  | some c =>
    cases hlf : md.logged_foods with
    | none => simp [hasKey_append, hasKey_cons, hasKey_nil, optListTruthy]
    | some fs =>
      cases hfs : fs.isEmpty <;>
        simp [hasKey_append, hasKey_cons, hasKey_nil, optListTruthy, hfs]

/-- A logged food whose `log_id` is the falsy (but observed, non-null)
value `0`. -/
def zeroLogIdFood : LoggedFood :=
  { log_id := Json.num 0, food_meta_data := none,
    serving_qty := Json.null, selected_nutrition_content := none }

/-- C1 as frozen is false: in the repository's own daily-log fixture the
lunch entry has `loggedFoods == []` — an observed (non-null) empty list —
yet its curated meal entry has no `"foods"` key; likewise a logged food
whose `log_id` is the observed value `0` loses its `"log_id"` key. -/
theorem C1_counterexample :
    lunchDetail.logged_foods = some [] ∧
    hasKey "foods" (curateMealEntry lunchDetail) = false ∧
    zeroLogIdFood.log_id = Json.num 0 ∧
    hasKey "log_id" (_curate_logged_food zeroLogIdFood) = false :=
  ⟨rfl, rfl, rfl, rfl⟩

/-- C1 amended: no curated output key ever maps to null, and for
`_curate_nutrition_content` and `_curate_food_meta` an allow-listed key
appears iff the source field is non-null (zero and empty values included);
but presence is governed by Python truthiness, not nullness, for
`_curate_logged_food`'s `log_id` (a zero or empty id is dropped) and for
the `foods` key of a daily-log meal entry (`logged_foods` must be non-null
and non-empty); `totals` of a meal entry and `nutrition` of a logged food
track presence of the source object, and the daily log's `date` tracks
non-nullness of `meal_date`. -/
theorem C1_allowlist_null_pruning (nc : NutritionContent) (fm : FoodMetaData)
    (lf : LoggedFood) (md : MealDetail) (log : DailyNutritionLog) :
    ((_curate_nutrition_content (some nc)).all (fun p => !p.2.isNull) = true) ∧
    ((_curate_food_meta (some fm)).all (fun p => !p.2.isNull) = true) ∧
    ((_curate_logged_food lf).all (fun p => !p.2.isNull) = true) ∧
    ((_curate_daily_log log).all (fun p => !p.2.isNull) = true) ∧
    (hasKey "serving_id" (_curate_nutrition_content (some nc)) = !nc.serving_id.isNull) ∧
    (hasKey "serving_unit" (_curate_nutrition_content (some nc)) = !nc.serving_unit.isNull) ∧
    (hasKey "number_of_units" (_curate_nutrition_content (some nc)) = !nc.number_of_units.isNull) ∧
    (hasKey "calories" (_curate_nutrition_content (some nc)) = !nc.calories.isNull) ∧
    (hasKey "protein" (_curate_nutrition_content (some nc)) = !nc.protein.isNull) ∧
    (hasKey "fat" (_curate_nutrition_content (some nc)) = !nc.fat.isNull) ∧
    (hasKey "carbs" (_curate_nutrition_content (some nc)) = !nc.carbs.isNull) ∧
    (hasKey "fiber" (_curate_nutrition_content (some nc)) = !nc.fiber.isNull) ∧
    (hasKey "sugar" (_curate_nutrition_content (some nc)) = !nc.sugar.isNull) ∧
    (hasKey "food_id" (_curate_food_meta (some fm)) = !fm.food_id.isNull) ∧
    (hasKey "food_name" (_curate_food_meta (some fm)) = !fm.food_name.isNull) ∧
    (hasKey "brand_name" (_curate_food_meta (some fm)) = !fm.brand_name.isNull) ∧
    (hasKey "source" (_curate_food_meta (some fm)) = !fm.source.isNull) ∧
    (hasKey "log_id" (_curate_logged_food lf) = lf.log_id.pyTruthy) ∧
    (hasKey "serving_qty" (_curate_logged_food lf) = !lf.serving_qty.isNull) ∧
    (hasKey "nutrition" (_curate_logged_food lf) = lf.selected_nutrition_content.isSome) ∧
    (hasKey "totals" (curateMealEntry md) = md.meal_nutrition_content.isSome) ∧
    (hasKey "foods" (curateMealEntry md) = optListTruthy md.logged_foods) ∧
    (hasKey "date" (_curate_daily_log log) = !log.meal_date.isNull) := by
  obtain ⟨n1, n2, n3, n4, n5, n6, n7, n8, n9⟩ := hasKey_curate_nc nc
  obtain ⟨f1, f2, f3, f4⟩ := hasKey_curate_fm fm
  obtain ⟨l1, l2, l3⟩ := hasKey_logged_food lf
  obtain ⟨-, -, m3, m4⟩ := hasKey_meal_entry md
  refine ⟨curate_nc_no_null _, curate_food_meta_no_null _, curate_logged_food_no_null _,
    curate_daily_log_no_null _, n1, n2, n3, n4, n5, n6, n7, n8, n9, f1, f2, f3, f4,
    l1, l2, l3, m3, m4, ?_⟩
  unfold _curate_daily_log
  rw [hasKey_pruneNulls]
  simp [Json.isNull]

theorem find?_none_of_hasKey (k : String) (d : List (String × Json))
    (h : hasKey k d = false) : d.find? (fun kv => kv.1 == k) = none := by
  rw [List.find?_eq_none]
  rw [hasKey, List.any_eq_false] at h
  exact h

theorem jlookup_meals (log : DailyNutritionLog) :
    jlookup "meals" (_curate_daily_log log) =
      some (Json.arr (log.meal_details.map (fun md => Json.obj (curateMealEntry md)))) := by
  unfold _curate_daily_log
  cases log.meal_date <;> rfl

/-- C10: the curated full log always carries the `daily_goals`,
`daily_totals` and `meals` keys and the summary always carries `totals` and
`goals`, even when their values are empty containers: the final pruning
removes exactly the keys whose value is null, and these container values
are never null (emptiness, unlike null, is preserved). -/
theorem C10_container_keys_always_present (log : DailyNutritionLog)
    (d : List (String × Json)) (p : String × Json) :
    hasKey "daily_goals" (_curate_daily_log log) = true ∧
    hasKey "daily_totals" (_curate_daily_log log) = true ∧
    hasKey "meals" (_curate_daily_log log) = true ∧
    hasKey "totals" (nutritionSummary log) = true ∧
    hasKey "goals" (nutritionSummary log) = true ∧
    (p ∈ pruneNulls d ↔ p ∈ d ∧ p.2.isNull = false) ∧
    _curate_daily_log ⟨Json.null, none, none, []⟩ =
      [("daily_goals", Json.obj []), ("daily_totals", Json.obj []), ("meals", Json.arr [])] ∧
    nutritionSummary ⟨Json.null, none, none, []⟩ =
      [("date", Json.null), ("totals", Json.obj []), ("goals", Json.obj [])] := by
  refine ⟨?_, ?_, ?_, rfl, rfl, ?_, rfl, rfl⟩ <;>
    first
    | (unfold _curate_daily_log; cases log.meal_date <;> rfl)
    | simp [pruneNulls, List.mem_filter]

/-- C7: on the fixture log, `get_nutrition_summary` returns exactly
`{date, totals, goals}` with the source's calories/protein/fat/carbs values
and no meal breakdown, while `get_nutrition_log` on the same log produces a
`meals` array with one entry per source meal detail — 2 for the fixture,
the first named `"Breakfast"` — each entry always carrying `meal_name` and
`meal_id`, and carrying `totals`/`foods` only when the source provided meal
nutrition content / logged foods respectively. -/
theorem C7_summary_vs_full_log :
    get_nutrition_summary (.ok dailyLogFixture) =
      .json (Json.obj
        [("date", Json.str "2024-01-15"),
         ("totals", Json.obj [("calories", Json.num 1850), ("protein", Json.num 95),
            ("fat", Json.num 62), ("carbs", Json.num 220)]),
         ("goals", Json.obj [("calories", Json.num 2200), ("protein", Json.num 120),
            ("fat", Json.num 73), ("carbs", Json.num 275)])]) ∧
    (∀ log, objKeys (nutritionSummary log) = ["date", "totals", "goals"]) ∧
    (∀ log, hasKey "meals" (nutritionSummary log) = false) ∧
    get_nutrition_log (.ok dailyLogFixture) =
      .json (Json.obj (_curate_daily_log dailyLogFixture)) ∧
    jlookup "meals" (_curate_daily_log dailyLogFixture) =
      some (Json.arr [Json.obj (curateMealEntry breakfastDetail),
        Json.obj (curateMealEntry lunchDetail)]) ∧
    jlookup "meal_name" (curateMealEntry breakfastDetail) = some (Json.str "Breakfast") ∧
    jlookup "meal_id" (curateMealEntry breakfastDetail) = some (Json.num 645041) ∧
    (∀ log, jlookup "meals" (_curate_daily_log log) =
      some (Json.arr (log.meal_details.map (fun md => Json.obj (curateMealEntry md))))) ∧
    (∀ md, hasKey "meal_name" (curateMealEntry md) = true ∧
      hasKey "meal_id" (curateMealEntry md) = true ∧
      hasKey "totals" (curateMealEntry md) = md.meal_nutrition_content.isSome ∧
      hasKey "foods" (curateMealEntry md) = optListTruthy md.logged_foods) :=
  ⟨rfl, fun log => rfl, fun log => rfl, rfl, rfl, rfl, rfl, jlookup_meals, hasKey_meal_entry⟩

/-- C8: every curated collection has the same number of elements as its
source sequence, in the same order: element `i` of the curated list is the
curation of element `i` of the source — for search results and their
servings, the meals of a daily log, the logged foods of a meal, favorites,
custom foods, custom meals, and the frequent/recent food lists. -/
theorem C8_collections_preserve_order_and_count :
    (∀ (q : String) (sr : SearchResults),
        jlookup "results" (respObj (search_foods q (.ok sr))) =
          some (Json.arr (sr.results.map (fun r => Json.obj (_curate_search_result r))))) ∧
    (∀ (rs : List SearchResult) (i : Nat),
        (rs.map (fun r => Json.obj (_curate_search_result r))).length = rs.length ∧
        (rs.map (fun r => Json.obj (_curate_search_result r)))[i]? =
          rs[i]?.map (fun r => Json.obj (_curate_search_result r))) ∧
    (∀ (sr : SearchResult) (l : List NutritionContent),
        sr.nutrition_contents = some l → l ≠ [] →
        jlookup "servings" (_curate_search_result sr) =
          some (Json.arr (l.map (fun nc => Json.obj (_curate_nutrition_content (some nc)))))) ∧
    (∀ (l : List NutritionContent) (i : Nat),
        (l.map (fun nc => Json.obj (_curate_nutrition_content (some nc)))).length = l.length ∧
        (l.map (fun nc => Json.obj (_curate_nutrition_content (some nc))))[i]? =
          l[i]?.map (fun nc => Json.obj (_curate_nutrition_content (some nc)))) ∧
    (∀ log, jlookup "meals" (_curate_daily_log log) =
        some (Json.arr (log.meal_details.map (fun md => Json.obj (curateMealEntry md))))) ∧
    (∀ (mds : List MealDetail) (i : Nat),
        (mds.map (fun md => Json.obj (curateMealEntry md))).length = mds.length ∧
        (mds.map (fun md => Json.obj (curateMealEntry md)))[i]? =
          mds[i]?.map (fun md => Json.obj (curateMealEntry md))) ∧
    (∀ (md : MealDetail) (fs : List LoggedFood),
        md.logged_foods = some fs → fs ≠ [] →
        jlookup "foods" (curateMealEntry md) =
          some (Json.arr (fs.map (fun f => Json.obj (_curate_logged_food f))))) ∧
    (∀ (fs : List LoggedFood) (i : Nat),
        (fs.map (fun f => Json.obj (_curate_logged_food f))).length = fs.length ∧
        (fs.map (fun f => Json.obj (_curate_logged_food f)))[i]? =
          fs[i]?.map (fun f => Json.obj (_curate_logged_food f))) ∧
    (∀ fl : FavoriteFoodList, jlookup "favorites" (respObj (list_favorite_foods (.ok fl))) =
        some (Json.arr (fl.items.map (fun f => Json.obj (_curate_search_result f))))) ∧
    (∀ cf : CustomFoodList, jlookup "custom_foods" (respObj (list_custom_foods (.ok cf))) =
        some (Json.arr (cf.items.map (fun f => Json.obj (_curate_search_result f))))) ∧
    (∀ cm : CustomMealList, jlookup "custom_meals" (respObj (list_custom_meals (.ok cm))) =
        some (Json.arr (cm.items.map (fun m => Json.obj (_curate_search_result m))))) ∧
    (∀ (meal : String) (meals : List Meal) (mid : Int) (r : RecentFoods)
        (recentOp : Int → Except String RecentFoods),
        _resolve_meal_id meals meal = .ok mid → recentOp mid = .ok r →
        jlookup "frequent_foods" (respObj (get_recent_foods meal (.ok meals) recentOp).1) =
          some (Json.arr (r.frequent_foods.map (fun f => Json.obj (_curate_search_result f)))) ∧
        jlookup "recent_foods" (respObj (get_recent_foods meal (.ok meals) recentOp).1) =
          some (Json.arr (r.recent_foods.map (fun f => Json.obj (_curate_search_result f))))) := by
  refine ⟨fun q sr => rfl,
    fun rs i => ⟨List.length_map rs _, List.getElem?_map _ rs i⟩,
    ?_,
    fun l i => ⟨List.length_map l _, List.getElem?_map _ l i⟩,
    jlookup_meals,
    fun mds i => ⟨List.length_map mds _, List.getElem?_map _ mds i⟩,
    ?_,
    fun fs i => ⟨List.length_map fs _, List.getElem?_map _ fs i⟩,
    fun fl => rfl, fun cf => rfl, fun cm => rfl, ?_⟩
  · intro sr l hnc hne
    have hfm := (hasKey_food_meta_other sr.food_meta_data).2.2.2.1
    have hol : optListTruthy (some l) = true := by
      cases l with
      | nil => exact absurd rfl hne
      | cons a t => rfl
    unfold _curate_search_result
    rw [hnc, hol]
    cases hfav : sr.is_favorite.isNull <;>
      simp [hfav, jlookup, List.find?_append, find?_none_of_hasKey _ _ hfm, List.find?]
  · intro md fs hlf hne
    have hemp : fs.isEmpty = false := by
      cases fs with
      | nil => exact absurd rfl hne
      | cons a t => rfl
    unfold curateMealEntry
    cases hnc : md.meal_nutrition_content <;> simp only [hlf, hemp] <;> rfl
  · intro meal meals mid r recentOp hres hop
    refine ⟨?_, ?_⟩ <;> (simp only [get_recent_foods, hres, hop]; rfl)

/-- An all-null nutrition content, for the C8 witness. -/
def allNullNC : NutritionContent :=
  ⟨Json.null, Json.null, Json.null, Json.null, Json.null,
   Json.null, Json.null, Json.null, Json.null⟩

/-- Witness for C8: the conditional clauses applied at concrete inputs. -/
theorem C8_collections_preserve_order_and_count_witness :
    jlookup "servings" (_curate_search_result ⟨none, some [allNullNC], Json.null⟩) =
      some (Json.arr [Json.obj (_curate_nutrition_content (some allNullNC))]) ∧
    jlookup "foods" (curateMealEntry breakfastDetail) =
      some (Json.arr [Json.obj (_curate_logged_food oatmealFood)]) ∧
    jlookup "frequent_foods"
        (respObj (get_recent_foods "Breakfast" (.ok mealDefsFixture)
          (fun _ => .ok ⟨[], []⟩)).1) = some (Json.arr []) := by
  obtain ⟨-, -, hserv, -, -, -, hfoods, -, -, -, -, hrecent⟩ :=
    C8_collections_preserve_order_and_count
  exact ⟨hserv ⟨none, some [allNullNC], Json.null⟩ [allNullNC] rfl (List.cons_ne_nil _ _),
    hfoods breakfastDetail [oatmealFood] rfl (List.cons_ne_nil _ _),
    (hrecent "Breakfast" mealDefsFixture 645041 ⟨[], []⟩ (fun _ => .ok ⟨[], []⟩) rfl rfl).1⟩
